import Mathlib

/-
Verification of the slack-thread-expander event relay (src/main.rs).

The development shallowly embeds the program's data model and operations:
  * `Json` models `serde_json::Value`.
  * The `decode*` functions model the serde deserializers of `SlackEvent`,
    `EventsApiPayload`, `EventCallbackEvent` and the hand-written
    `MessageEvent::deserialize` (two-phase subtype dispatch), including the
    internally-tagged-enum rules (`#[serde(tag = "type")]`, `#[serde(other)]`):
    a present-but-unknown tag maps to the catch-all variant where one exists,
    a missing tag is always an error, and the tag field is removed from the
    content handed to the chosen variant.
  * `find_threaded_message` is a direct transcription of the classification
    function.
  * `handle_event` models the reaction sequencer; the two REST collaborators
    are function parameters returning decoded responses (transport failure is
    an `Except.error`), and the returned `List ApiCall` is the trace of
    outbound calls.  `Option::unwrap()` on `None` is modelled as the distinct
    `Outcome.panicked` result, `anyhow` errors propagated with `?` as
    `Outcome.error`.
  * `handle_text` models the frame-dispatch function: its second component is
    the list of messages sent over the sink (the sink itself is assumed to
    transmit successfully).
  * `runEpoch` models one pass of the inner receive loop of `main`, and
    `runLoop` the outer reconnect loop: each epoch is the finite list of items
    the stream yields (`Ok(Some(frame))` or `Err(e)`; end of the list is
    `Ok(None)`), and each reconnection consumes one `apps.connections.open`
    response.  `SupEvent.handshakeCalled` marks an invocation of the
    open-connection collaborator.
JSON text parsing (`serde_json::from_str`) is abstracted: a `Text` frame
carries the parsed `Json` value directly; all claims concern the typed decode
of that value.
-/

namespace SlackThreadExpander

/-- JSON values, the model of `serde_json::Value`. -/
inductive Json where
  | null : Json
  | bool (b : Bool) : Json
  | num (n : Int) : Json
  | str (s : String) : Json
  | arr (elems : List Json) : Json
  | obj (fields : List (String × Json)) : Json

/-- First value stored under `key` in a JSON object, `none` otherwise. -/
def Json.getField : Json → String → Option Json
  | .obj fields, key => (fields.find? (fun p => p.1 == key)).map (fun p => p.2)
  | _, _ => none

/-- Decoding a `String` field (serde `String`). -/
def decodeString : Json → Except String String
  | .str s => .ok s
  | _ => .error "invalid type: expected string"

/-- Decoding an `Option<String>` field: absent or null is `none`. -/
def decodeOptString : Option Json → Except String (Option String)
  | none => .ok none
  | some .null => .ok none
  | some (.str s) => .ok (some s)
  | some _ => .error "invalid type: expected string or null"

/-- The `CommonMessageEvent { channel, thread_ts, ts }` struct of src/main.rs. -/
structure CommonMessageEvent where
  channel : String
  thread_ts : Option String
  ts : String
deriving DecidableEq, Repr

/-- serde-derived decoder of `CommonMessageEvent`: `channel` and `ts` are
required strings, `thread_ts` is optional; unknown fields are ignored.  (In
the program this decoder is only ever applied to the object remainder of the
flatten in `MessageEvent::deserialize`, hence to a JSON object.) -/
def decodeCommonMessageEvent : Json → Except String CommonMessageEvent
  | .obj fields =>
    match (Json.obj fields).getField "channel" with
    | none => .error "missing field channel"
    | some cv =>
      match decodeString cv with
      | .error e => .error e
      | .ok channel =>
        match decodeOptString ((Json.obj fields).getField "thread_ts") with
        | .error e => .error e
        | .ok thread_ts =>
          match (Json.obj fields).getField "ts" with
          | none => .error "missing field ts"
          | some tv =>
            match decodeString tv with
            | .error e => .error e
            | .ok ts => .ok ⟨channel, thread_ts, ts⟩
  | _ => .error "invalid type: expected map"

/-- The `MessageEvent` enum of src/main.rs. -/
inductive MessageEvent where
  | plain (e : CommonMessageEvent)
  | fileShare (e : CommonMessageEvent)
  | other
deriving DecidableEq, Repr

/-- The helper `Subtype` enum inside `MessageEvent::deserialize`:
`file_share` or the `#[serde(other)]` catch-all. -/
inductive SubtypeTag where
  | fileShare
  | other
deriving DecidableEq, Repr

/-- Decoder of the `Subtype` enum: any string other than `"file_share"` is
the catch-all; a non-string is an error. -/
def decodeSubtypeTag : Json → Except String SubtypeTag
  | .str s => .ok (if s = "file_share" then .fileShare else .other)
  | _ => .error "invalid type: expected variant identifier"

/-- Decoder of the `Option<Subtype>` field: absent or null is `none`. -/
def decodeOptSubtypeTag : Option Json → Except String (Option SubtypeTag)
  | none => .ok none
  | some .null => .ok none
  | some v =>
    match decodeSubtypeTag v with
    | .error e => .error e
    | .ok t => .ok (some t)

/-- The hand-written `MessageEvent::deserialize`: read the optional `subtype`
discriminator, keep the remaining fields (the serde flatten removes the
consumed `subtype` key), then dispatch: `file_share` decodes the remainder as
`CommonMessageEvent`, any other present subtype is `Other` with no further
validation, and an absent subtype decodes the remainder as the plain shape. -/
def decodeMessageEvent : Json → Except String MessageEvent
  | .obj fields =>
    match decodeOptSubtypeTag ((Json.obj fields).getField "subtype") with
    | .error e => .error e
    | .ok sub =>
      match sub with
      | some .fileShare =>
        match decodeCommonMessageEvent (Json.obj (fields.filter (fun p => p.1 != "subtype"))) with
        | .error e => .error e
        | .ok ev => .ok (.fileShare ev)
      | some .other => .ok .other
      | none =>
        match decodeCommonMessageEvent (Json.obj (fields.filter (fun p => p.1 != "subtype"))) with
        | .error e => .error e
        | .ok ev => .ok (.plain ev)
  | _ => .error "invalid type: expected map"

/-- The `EventCallbackEvent` enum of src/main.rs: tagged by `type`, with a
`#[serde(other)]` catch-all. -/
inductive EventCallbackEvent where
  | message (m : MessageEvent)
  | other
deriving DecidableEq, Repr

/-- Decoder of `EventCallbackEvent`: internally tagged by `type`; the tag
`"message"` decodes the remaining content as `MessageEvent`, any other string
tag is the catch-all, a missing or non-string tag is an error. -/
def decodeEventCallbackEvent : Json → Except String EventCallbackEvent
  | .obj fields =>
    match (Json.obj fields).getField "type" with
    | none => .error "missing field type"
    | some (.str t) =>
      if t = "message" then
        match decodeMessageEvent (Json.obj (fields.filter (fun p => p.1 != "type"))) with
        | .error e => .error e
        | .ok m => .ok (.message m)
      else .ok .other
    | some _ => .error "invalid type: expected string tag"
  | _ => .error "invalid type: expected map"

/-- The `EventCallbackPayload { event, event_id }` struct of src/main.rs. -/
structure EventCallbackPayload where
  event : EventCallbackEvent
  event_id : String
deriving DecidableEq, Repr

/-- serde-derived decoder of `EventCallbackPayload`: both fields required. -/
def decodeEventCallbackPayload : Json → Except String EventCallbackPayload
  | .obj fields =>
    match (Json.obj fields).getField "event" with
    | none => .error "missing field event"
    | some ev =>
      match decodeEventCallbackEvent ev with
      | .error e => .error e
      | .ok event =>
        match (Json.obj fields).getField "event_id" with
        | none => .error "missing field event_id"
        | some idv =>
          match decodeString idv with
          | .error e => .error e
          | .ok event_id => .ok ⟨event, event_id⟩
  | _ => .error "invalid type: expected map"

/-- The `EventsApiPayload` enum of src/main.rs: `event_callback` or the catch-all. -/
inductive EventsApiPayload where
  | eventCallback (p : EventCallbackPayload)
  | other
deriving DecidableEq, Repr

/-- Decoder of `EventsApiPayload`: internally tagged by `type`; the tag
`"event_callback"` decodes the remaining content as `EventCallbackPayload`,
any other string tag is the catch-all, a missing or non-string tag is an
error. -/
def decodeEventsApiPayload : Json → Except String EventsApiPayload
  | .obj fields =>
    match (Json.obj fields).getField "type" with
    | none => .error "missing field type"
    | some (.str t) =>
      if t = "event_callback" then
        match decodeEventCallbackPayload (Json.obj (fields.filter (fun p => p.1 != "type"))) with
        | .error e => .error e
        | .ok p => .ok (.eventCallback p)
      else .ok .other
    | some _ => .error "invalid type: expected string tag"
  | _ => .error "invalid type: expected map"

/-- The `ConnectionInfo { app_id }` struct of src/main.rs. -/
structure ConnectionInfo where
  app_id : String
deriving DecidableEq, Repr

/-- The `HelloEvent { connection_info }` struct of src/main.rs. -/
structure HelloEvent where
  connection_info : ConnectionInfo
deriving DecidableEq, Repr

/-- The `EventsApiEvent { envelope_id, payload }` struct of src/main.rs; `payload` is a
deferred-decoded `serde_json::Value`. -/
structure EventsApiEvent where
  envelope_id : String
  payload : Json

/-- The `SlackEvent` enum of src/main.rs: `hello`, `disconnect` or `events_api`.
There is no catch-all at this level. -/
inductive SlackEvent where
  | hello (e : HelloEvent)
  | disconnect
  | eventsApi (e : EventsApiEvent)

/-- serde-derived decoder of `ConnectionInfo`: `app_id` is a required
string. -/
def decodeConnectionInfo : Json → Except String ConnectionInfo
  | .obj fields =>
    match (Json.obj fields).getField "app_id" with
    | none => .error "missing field app_id"
    | some v =>
      match decodeString v with
      | .error e => .error e
      | .ok app_id => .ok ⟨app_id⟩
  | _ => .error "invalid type: expected map"

/-- serde-derived decoder of `HelloEvent`: `connection_info` required. -/
def decodeHelloEvent : Json → Except String HelloEvent
  | .obj fields =>
    match (Json.obj fields).getField "connection_info" with
    | none => .error "missing field connection_info"
    | some v =>
      match decodeConnectionInfo v with
      | .error e => .error e
      | .ok ci => .ok ⟨ci⟩
  | _ => .error "invalid type: expected map"

/-- serde-derived decoder of `EventsApiEvent`: `envelope_id` is a required
string, `payload` a required arbitrary JSON value. -/
def decodeEventsApiEvent : Json → Except String EventsApiEvent
  | .obj fields =>
    match (Json.obj fields).getField "envelope_id" with
    | none => .error "missing field envelope_id"
    | some v =>
      match decodeString v with
      | .error e => .error e
      | .ok envelope_id =>
        match (Json.obj fields).getField "payload" with
        | none => .error "missing field payload"
        | some payload => .ok ⟨envelope_id, payload⟩
  | _ => .error "invalid type: expected map"

/-- Decoder of `SlackEvent`: internally tagged by `type` with the three
variants `hello`, `disconnect`, `events_api`; an unknown string tag is an
error (no catch-all), as is a missing or non-string tag.  The internally
tagged unit variant `disconnect` ignores all remaining fields. -/
def decodeSlackEvent : Json → Except String SlackEvent
  | .obj fields =>
    match (Json.obj fields).getField "type" with
    | none => .error "missing field type"
    | some (.str t) =>
      if t = "hello" then
        match decodeHelloEvent (Json.obj (fields.filter (fun p => p.1 != "type"))) with
        | .error e => .error e
        | .ok h => .ok (.hello h)
      else if t = "disconnect" then .ok .disconnect
      else if t = "events_api" then
        match decodeEventsApiEvent (Json.obj (fields.filter (fun p => p.1 != "type"))) with
        | .error e => .error e
        | .ok ev => .ok (.eventsApi ev)
      else .error ("unknown variant " ++ t)
    | some _ => .error "invalid type: expected string tag"
  | _ => .error "invalid type: expected map"

/-- Transcription of `find_threaded_message` (src/main.rs lines 290-322):
unwrap `EventCallback`, unwrap `Message`, unwrap `Plain`/`FileShare`
uniformly, require a present `thread_ts`, and return the channel paired with
the message's own `ts`. -/
def find_threaded_message : EventsApiPayload → Option (String × String)
  | .other => none
  | .eventCallback ec =>
    match ec.event with
    | .other => none
    | .message me =>
      match me with
      | .other => none
      | .plain ev | .fileShare ev =>
        if ev.thread_ts.isNone then none
        else some (ev.channel, ev.ts)

/-- Decoded `chat.getPermalink` response (`ok`, optional `permalink`). -/
structure ChatGetPermalinkResponse where
  ok : Bool
  permalink : Option String
deriving DecidableEq, Repr

/-- Decoded `chat.postMessage` response (`ok`, optional `ts`). -/
structure ChatPostMessageResponse where
  ok : Bool
  ts : Option String
deriving DecidableEq, Repr

/-- The environment and the two REST collaborators consumed by
`handle_event`: the `SLACK_OAUTH_TOKEN` variable, the resolve-permalink call
and the post-message call.  A collaborator returning `Except.error` models a
transport-level failure (send, HTTP status or body decode). -/
structure Collaborators where
  oauthToken : Option String
  getPermalink : String → String → Except String ChatGetPermalinkResponse
  postMessage : String → String → Except String ChatPostMessageResponse

/-- Result of a fallible computation in the program: `ok`, an `anyhow` error
propagated with the question-mark operator, or a process-aborting panic
(`Option::unwrap()` on `None`). -/
inductive Outcome (α : Type) where
  | ok (a : α)
  | error (e : String)
  | panicked (msg : String)
deriving DecidableEq, Repr

/-- One outbound REST call made by the reaction sequencer. -/
inductive ApiCall where
  | getPermalink (channel message_ts : String)
  | postMessage (channel text : String)
deriving DecidableEq, Repr

/-- Transcription of `handle_event` (src/main.rs lines 247-288), returning the
outcome together with the trace of outbound REST calls.  On a positive
classification it reads the OAuth token, calls `chat.getPermalink`, bails on
`ok:false`, unwraps the permalink (panicking when absent), calls
`chat.postMessage`, bails on `ok:false` and unwraps the returned `ts`. -/
def handle_event (c : Collaborators) (payload : EventsApiPayload) :
    Outcome Unit × List ApiCall :=
  match find_threaded_message payload with
  | none => (.ok (), [])
  | some (channel, message_ts) =>
    match c.oauthToken with
    | none => (.error "environment variable not found", [])
    | some _ =>
      match c.getPermalink channel message_ts with
      | .error e => (.error e, [.getPermalink channel message_ts])
      | .ok resp =>
        if !resp.ok then
          (.error "chat.getPermalink failed", [.getPermalink channel message_ts])
        else
          match resp.permalink with
          | none => (.panicked "unwrap on None", [.getPermalink channel message_ts])
          | some permalink =>
            match c.postMessage channel permalink with
            | .error e =>
              (.error e,
               [.getPermalink channel message_ts, .postMessage channel permalink])
            | .ok resp2 =>
              if !resp2.ok then
                (.error "chat.postMessage failed",
                 [.getPermalink channel message_ts, .postMessage channel permalink])
              else
                match resp2.ts with
                | none =>
                  (.panicked "unwrap on None",
                   [.getPermalink channel message_ts, .postMessage channel permalink])
                | some _ =>
                  (.ok (),
                   [.getPermalink channel message_ts, .postMessage channel permalink])

/-- A message sent over the WebSocket sink. -/
inductive OutMsg where
  | pong (payload : List Nat)
  | text (j : Json)

/-- The serialized `Acknowledge { envelope_id }` frame body. -/
def ackJson (envelope_id : String) : Json :=
  .obj [("envelope_id", .str envelope_id)]

/-- Transcription of `handle_text` (src/main.rs lines 116-148): decode the
frame as `SlackEvent`; `Hello` continues with no send, `Disconnect` returns
`false` (requesting the inner loop to stop), `EventsApi` decodes the deferred
payload, runs `handle_event`, and only then sends the acknowledgment.  Every
error propagates: a decode error or a `handle_event` failure leaves the
function before the acknowledgment is sent. -/
def handle_text (c : Collaborators) (j : Json) : Outcome Bool × List OutMsg :=
  match decodeSlackEvent j with
  | .error e => (.error e, [])
  | .ok (.hello _) => (.ok true, [])
  | .ok .disconnect => (.ok false, [])
  | .ok (.eventsApi ev) =>
    match decodeEventsApiPayload ev.payload with
    | .error e => (.error e, [])
    | .ok p =>
      match (handle_event c p).1 with
      | .ok _ => (.ok true, [.text (ackJson ev.envelope_id)])
      | .error e => (.error e, [])
      | .panicked m => (.panicked m, [])

/-- One WebSocket frame delivered by the stream. -/
inductive Frame where
  | ping (payload : List Nat)
  | pong (payload : List Nat)
  | text (j : Json)
  | binary (payload : List Nat)
  | close

/-- One item yielded by `try_next` on the read half: a frame, or a stream
read error.  The end of the item list models `Ok(None)` (stream end). -/
inductive StreamItem where
  | frame (f : Frame)
  | readError (e : String)

/-- How one connection epoch (one run of the inner `while let` loop of
`main`) ends: `reconnect` falls through to the re-handshake at the bottom of
the outer loop; `fatal` is an error propagated out of `main` (process exit);
`panicked` is a process-aborting panic. -/
inductive EpochExit where
  | reconnect
  | fatal (e : String)
  | panicked (msg : String)
deriving DecidableEq, Repr

/-- Transcription of the inner receive loop of `main` (src/main.rs lines
44-68): `Ping` answers `Pong`, `Pong` and `Binary` are logged only, `Close`
breaks (reconnect), a read error propagates out of `main` (fatal), a text
frame runs `handle_text` — `Ok(false)` (Disconnect) breaks, an error is
fatal — and stream end (`Ok(None)`) falls out of the loop (reconnect).
Returns the exit and all messages sent over the sink during the epoch. -/
def runEpoch (c : Collaborators) : List StreamItem → EpochExit × List OutMsg
  | [] => (.reconnect, [])
  | .readError e :: _ => (.fatal e, [])
  | .frame .close :: _ => (.reconnect, [])
  | .frame (.ping p) :: rest =>
    let r := runEpoch c rest
    (r.1, .pong p :: r.2)
  | .frame (.pong _) :: rest => runEpoch c rest
  | .frame (.binary _) :: rest => runEpoch c rest
  | .frame (.text j) :: rest =>
    match handle_text c j with
    | (.ok true, sent) =>
      let r := runEpoch c rest
      (r.1, sent ++ r.2)
    | (.ok false, sent) => (.reconnect, sent)
    | (.error e, sent) => (.fatal e, sent)
    | (.panicked m, sent) => (.panicked m, sent)

/-- Decoded `apps.connections.open` response (`ok`, optional `url`). -/
structure AppsConnectionsOpenResponse where
  ok : Bool
  url : Option String
deriving DecidableEq, Repr

/-- Observable supervisor events: a message sent over the current sink, or an
invocation of the open-connection (handshake) collaborator. -/
inductive SupEvent where
  | sent (m : OutMsg)
  | handshakeCalled

/-- How the supervisor run ends on its finite inputs: the modelled input was
exhausted, an error propagated out of `main`, or the process panicked. -/
inductive RunResult where
  | outOfInput
  | fatal (e : String)
  | panicked (msg : String)
deriving DecidableEq, Repr

/-- Transcription of the outer reconnect loop of `main` (src/main.rs lines
41-89): run one epoch; when it falls through, call `apps.connections.open`
again (consuming the next handshake response), bail on `ok:false`, unwrap the
URL (panicking when absent), and continue with the next epoch.  The event
trace interleaves sink sends with handshake invocations in program order. -/
def runLoop (c : Collaborators) :
    List AppsConnectionsOpenResponse → List (List StreamItem) →
      List SupEvent × RunResult
  | _, [] => ([], .outOfInput)
  | hs, items :: eps =>
    match runEpoch c items with
    | (.fatal e, sent) => (sent.map SupEvent.sent, .fatal e)
    | (.panicked m, sent) => (sent.map SupEvent.sent, .panicked m)
    | (.reconnect, sent) =>
      match hs with
      | [] => (sent.map SupEvent.sent, .outOfInput)
      | h :: hs2 =>
        if !h.ok then
          (sent.map SupEvent.sent ++ [SupEvent.handshakeCalled],
           .fatal "failed to open connection")
        else
          match h.url with
          | none =>
            (sent.map SupEvent.sent ++ [SupEvent.handshakeCalled],
             .panicked "unwrap on None")
          | some _ =>
            let r := runLoop c hs2 eps
            (sent.map SupEvent.sent ++ SupEvent.handshakeCalled :: r.1, r.2)

/-- Concrete collaborators for which both REST calls succeed. -/
def collabOk : Collaborators :=
  ⟨some "xoxb-token",
   fun _ _ => .ok ⟨true, some "https://slack.example/archives/p1"⟩,
   fun _ _ => .ok ⟨true, some "9.9"⟩⟩

/-- Concrete collaborators whose resolve-permalink call answers `ok:false`. -/
def collabPermalinkNotOk : Collaborators :=
  ⟨some "xoxb-token",
   fun _ _ => .ok ⟨false, none⟩,
   fun _ _ => .ok ⟨true, some "9.9"⟩⟩

/-- Concrete collaborators whose resolve-permalink call answers `ok:true` but
carries no permalink. -/
def collabPermalinkMissing : Collaborators :=
  ⟨some "xoxb-token",
   fun _ _ => .ok ⟨true, none⟩,
   fun _ _ => .ok ⟨true, some "9.9"⟩⟩

/-- Fixture: a plain threaded message event (spec Scenario A). -/
def threadedMessageJson : Json :=
  .obj [("type", .str "message"), ("channel", .str "C1"),
        ("ts", .str "1.1"), ("thread_ts", .str "0.1")]

/-- Fixture: the `event_callback` payload wrapping `threadedMessageJson`. -/
def eventCallbackJson : Json :=
  .obj [("type", .str "event_callback"), ("event", threadedMessageJson),
        ("event_id", .str "Ev1")]

/-- Fixture: the full `events_api` envelope wrapping `eventCallbackJson`. -/
def envelopeJson : Json :=
  .obj [("type", .str "events_api"), ("envelope_id", .str "env1"),
        ("payload", eventCallbackJson)]

/-- The decoded form of `eventCallbackJson`. -/
def threadedPayload : EventsApiPayload :=
  .eventCallback ⟨.message (.plain ⟨"C1", some "0.1", "1.1"⟩), "Ev1"⟩

/-- Fixture: a `disconnect` frame body. -/
def disconnectJson : Json :=
  .obj [("type", .str "disconnect")]

/-- Removing the entries for a different key does not change an association
lookup. -/
theorem find_filter_ne (l : List (String × Json)) (bad key : String)
    (h : key ≠ bad) :
    (l.filter (fun p => p.1 != bad)).find? (fun p => p.1 == key)
      = l.find? (fun p => p.1 == key) := by
  induction l with
  | nil => rfl
  | cons a rest ih =>
    by_cases h1 : a.1 = bad
    · have hkey : (bad == key) = false := beq_eq_false_iff_ne.mpr (Ne.symm h)
      simp [List.filter_cons, h1, List.find?, hkey, ih]
    · by_cases h2 : a.1 = key
      · simp [List.filter_cons, h1, h2, List.find?, h]
      · have hkey : (a.1 == key) = false := beq_eq_false_iff_ne.mpr h2
        simp [List.filter_cons, h1, List.find?, hkey, ih]

/-- Removing the entries for a different key does not change `Json.getField`
on the object. -/
theorem getField_filter_ne (fields : List (String × Json)) (bad key : String)
    (h : key ≠ bad) :
    (Json.obj (fields.filter (fun p => p.1 != bad))).getField key
      = (Json.obj fields).getField key := by
  simp [Json.getField, find_filter_ne fields bad key h]

/-- A present subtype other than `file_share` decodes to the catch-all
`MessageEvent.other` with no further validation. -/
theorem decodeMessageEvent_subtype_other (fields : List (String × Json))
    (s : String) (h1 : (Json.obj fields).getField "subtype" = some (.str s))
    (h2 : s ≠ "file_share") :
    decodeMessageEvent (.obj fields) = .ok .other := by
  simp only [decodeMessageEvent]
  rw [h1]
  simp [decodeOptSubtypeTag, decodeSubtypeTag, h2]

example : decodeSlackEvent envelopeJson = .ok (.eventsApi ⟨"env1", eventCallbackJson⟩) := rfl
example : decodeEventsApiPayload eventCallbackJson = .ok threadedPayload := rfl
example : find_threaded_message threadedPayload = some ("C1", "1.1") := rfl
example : handle_event collabOk threadedPayload
    = (.ok (), [.getPermalink "C1" "1.1",
                .postMessage "C1" "https://slack.example/archives/p1"]) := rfl
example : handle_text collabOk envelopeJson = (.ok true, [.text (ackJson "env1")]) := rfl

/-- C1: every decoded event_callback message that is plain (no subtype) or has
subtype file_share and whose thread_ts is non-null classifies to
Some((channel, ts)), where ts is the message's own ts field, not its
thread_ts. -/
theorem c1_threaded_message_classified (channel ts tts event_id : String) :
    find_threaded_message
        (.eventCallback ⟨.message (.plain ⟨channel, some tts, ts⟩), event_id⟩)
      = some (channel, ts)
    ∧ find_threaded_message
        (.eventCallback ⟨.message (.fileShare ⟨channel, some tts, ts⟩), event_id⟩)
      = some (channel, ts) :=
  ⟨rfl, rfl⟩

/-- C2: classification returns None for every decoded message whose subtype is
present with any value other than file_share (such messages decode to the
catch-all variant regardless of the rest, thread_ts included), and for every
plain or file_share message whose thread_ts is null. -/
theorem c2_non_eligible_classified_none :
    (∀ (fields : List (String × Json)) (s : String),
        (Json.obj fields).getField "subtype" = some (.str s) →
        s ≠ "file_share" →
        decodeMessageEvent (.obj fields) = .ok .other)
    ∧ (∀ event_id : String,
        find_threaded_message (.eventCallback ⟨.message .other, event_id⟩) = none)
    ∧ (∀ channel ts event_id : String,
        find_threaded_message
            (.eventCallback ⟨.message (.plain ⟨channel, none, ts⟩), event_id⟩) = none
        ∧ find_threaded_message
            (.eventCallback ⟨.message (.fileShare ⟨channel, none, ts⟩), event_id⟩) = none) :=
  ⟨fun fields s h1 h2 => decodeMessageEvent_subtype_other fields s h1 h2,
   fun _ => rfl,
   fun _ _ _ => ⟨rfl, rfl⟩⟩

/-- Witness for C2 at the concrete subtype message_changed with a thread_ts
present (spec Scenario D). -/
theorem c2_witness :
    (Json.obj [("subtype", Json.str "message_changed"),
               ("thread_ts", Json.str "0.1")]).getField "subtype"
        = some (.str "message_changed")
    ∧ decodeMessageEvent
        (.obj [("subtype", Json.str "message_changed"),
               ("thread_ts", Json.str "0.1")]) = .ok .other :=
  ⟨rfl, c2_non_eligible_classified_none.1 _ "message_changed" rfl (by decide)⟩

/-- C5: an Events-API payload with a present but unrecognized type tag decodes
to the catch-all Other (never an error) and classifies to None, and an
event_callback whose inner event type tag is present but unrecognized decodes
to the inner catch-all and classifies to None. -/
theorem c5_unknown_tags_decode_other :
    (∀ (fields : List (String × Json)) (t : String),
        (Json.obj fields).getField "type" = some (.str t) →
        t ≠ "event_callback" →
        decodeEventsApiPayload (.obj fields) = .ok .other)
    ∧ find_threaded_message .other = none
    ∧ (∀ (fields : List (String × Json)) (t : String),
        (Json.obj fields).getField "type" = some (.str t) →
        t ≠ "message" →
        decodeEventCallbackEvent (.obj fields) = .ok .other)
    ∧ (∀ event_id : String,
        find_threaded_message (.eventCallback ⟨.other, event_id⟩) = none) := by
  refine ⟨?_, rfl, ?_, fun _ => rfl⟩
  · intro fields t h1 h2
    simp only [decodeEventsApiPayload]
    rw [h1]
    simp [h2]
  · intro fields t h1 h2
    simp only [decodeEventCallbackEvent]
    rw [h1]
    simp [h2]

/-- Witness for C5 at the concrete unknown tags app_rate_limited and
reaction_added. -/
theorem c5_witness :
    decodeEventsApiPayload (.obj [("type", Json.str "app_rate_limited")]) = .ok .other
    ∧ decodeEventCallbackEvent (.obj [("type", Json.str "reaction_added")]) = .ok .other :=
  ⟨c5_unknown_tags_decode_other.1 _ "app_rate_limited" rfl (by decide),
   c5_unknown_tags_decode_other.2.2.1 _ "reaction_added" rfl (by decide)⟩

/-- C8: classification is a pure, deterministic function of the decoded
event — equal inputs yield equal results. -/
theorem c8_classification_deterministic (p q : EventsApiPayload) (h : p = q) :
    find_threaded_message p = find_threaded_message q :=
  congrArg find_threaded_message h

/-- Witness for C8 at the concrete threaded payload. -/
theorem c8_witness :
    threadedPayload = threadedPayload
    ∧ find_threaded_message threadedPayload = find_threaded_message threadedPayload :=
  ⟨rfl, c8_classification_deterministic threadedPayload threadedPayload rfl⟩

/-- C3 counterexample: a successfully decoded and dispatched envelope whose
reaction fails (permalink lookup answers ok:false) sends no acknowledgment at
all — the error propagates out of handle_text before the acknowledgment —
refuting that exactly one acknowledgment is sent regardless of reaction
failure. -/
theorem c3_counterexample :
    decodeSlackEvent envelopeJson = .ok (.eventsApi ⟨"env1", eventCallbackJson⟩)
    ∧ handle_text collabPermalinkNotOk envelopeJson
        = (.error "chat.getPermalink failed", []) :=
  ⟨rfl, rfl⟩

/-- C3 (amended): for every successfully decoded and dispatched Events-API
envelope, exactly one Acknowledgment with its envelope_id is sent when
handling completes without error — in particular regardless of whether
classification matched, since a None classification makes handle_event
succeed doing nothing — but when the reaction fails the error (or panic)
propagates and no acknowledgment is sent. -/
theorem c3_ack_only_on_handled_success :
    ∀ (c : Collaborators) (j : Json) (ev : EventsApiEvent) (p : EventsApiPayload),
      decodeSlackEvent j = .ok (.eventsApi ev) →
      decodeEventsApiPayload ev.payload = .ok p →
      ((handle_event c p).1 = .ok () →
          handle_text c j = (.ok true, [.text (ackJson ev.envelope_id)]))
      ∧ (∀ e, (handle_event c p).1 = .error e →
          handle_text c j = (.error e, []))
      ∧ (∀ m, (handle_event c p).1 = .panicked m →
          handle_text c j = (.panicked m, []))
      ∧ (∀ q : EventsApiPayload, find_threaded_message q = none →
          (handle_event c q).1 = .ok ()) := by
  intro c j ev p h1 h2
  refine ⟨?_, ?_, ?_, ?_⟩
  · intro h3
    simp [handle_text, h1, h2, h3]
  · intro e h3
    simp [handle_text, h1, h2, h3]
  · intro m h3
    simp [handle_text, h1, h2, h3]
  · intro q hq
    simp [handle_event, hq]

/-- Witness for C3 (amended) at the concrete threaded envelope with succeeding
collaborators. -/
theorem c3_witness :
    decodeSlackEvent envelopeJson = .ok (.eventsApi ⟨"env1", eventCallbackJson⟩)
    ∧ decodeEventsApiPayload eventCallbackJson = .ok threadedPayload
    ∧ (handle_event collabOk threadedPayload).1 = .ok ()
    ∧ handle_text collabOk envelopeJson = (.ok true, [.text (ackJson "env1")]) :=
  ⟨rfl, rfl, rfl,
   (c3_ack_only_on_handled_success collabOk envelopeJson ⟨"env1", eventCallbackJson⟩
       threadedPayload rfl rfl).1 rfl⟩

/-- C9: the inner catch-all covers only unknown tag values, not a missing tag:
an Events-API payload object with no type field fails to decode, and in the
frame-dispatch path that error propagates out of handle_text. -/
theorem c9_missing_payload_type_tag (fields : List (String × Json))
    (h : (Json.obj fields).getField "type" = none) :
    decodeEventsApiPayload (.obj fields) = .error "missing field type"
    ∧ ∀ (c : Collaborators) (envelope_id : String),
        handle_text c
            (.obj [("type", Json.str "events_api"),
                   ("envelope_id", Json.str envelope_id),
                   ("payload", Json.obj fields)])
          = (.error "missing field type", []) := by
  have hdec : decodeEventsApiPayload (.obj fields) = .error "missing field type" := by
    simp only [decodeEventsApiPayload]
    rw [h]
  refine ⟨hdec, ?_⟩
  intro c envelope_id
  have hse : decodeSlackEvent
      (.obj [("type", Json.str "events_api"),
             ("envelope_id", Json.str envelope_id),
             ("payload", Json.obj fields)])
      = .ok (.eventsApi ⟨envelope_id, .obj fields⟩) := rfl
  simp [handle_text, hse, hdec]

/-- Witness for C9 at a concrete payload object lacking the type field. -/
theorem c9_witness :
    (Json.obj [("event_id", Json.str "Ev1")]).getField "type" = none
    ∧ decodeEventsApiPayload (.obj [("event_id", Json.str "Ev1")])
        = .error "missing field type"
    ∧ handle_text collabOk
        (.obj [("type", Json.str "events_api"), ("envelope_id", Json.str "env1"),
               ("payload", Json.obj [("event_id", Json.str "Ev1")])])
        = (.error "missing field type", []) :=
  ⟨rfl, (c9_missing_payload_type_tag [("event_id", Json.str "Ev1")] rfl).1,
   (c9_missing_payload_type_tag [("event_id", Json.str "Ev1")] rfl).2 collabOk "env1"⟩

/-- C10: a present subtype other than file_share decodes to the catch-all with
no validation of the remaining structure (no other field is required or
inspected), while the plain and file_share branches decode the remaining
structure and require channel and ts. -/
theorem c10_subtype_other_skips_validation :
    (∀ (fields : List (String × Json)) (s : String),
        (Json.obj fields).getField "subtype" = some (.str s) →
        s ≠ "file_share" →
        decodeMessageEvent (.obj fields) = .ok .other)
    ∧ (∀ fields : List (String × Json),
        (Json.obj fields).getField "subtype" = none →
        (Json.obj fields).getField "channel" = none →
        decodeMessageEvent (.obj fields) = .error "missing field channel")
    ∧ (∀ (fields : List (String × Json)) (channel : String),
        (Json.obj fields).getField "subtype" = none →
        (Json.obj fields).getField "channel" = some (.str channel) →
        (Json.obj fields).getField "thread_ts" = none →
        (Json.obj fields).getField "ts" = none →
        decodeMessageEvent (.obj fields) = .error "missing field ts")
    ∧ (∀ fields : List (String × Json),
        (Json.obj fields).getField "subtype" = some (.str "file_share") →
        (Json.obj fields).getField "channel" = none →
        decodeMessageEvent (.obj fields) = .error "missing field channel") := by
  refine ⟨decodeMessageEvent_subtype_other, ?_, ?_, ?_⟩
  · intro fields hsub hch
    have hch2 := (getField_filter_ne fields "subtype" "channel" (by decide)).trans hch
    simp [decodeMessageEvent, hsub, decodeOptSubtypeTag, decodeCommonMessageEvent, hch2]
  · intro fields channel hsub hch hth hts
    have hch2 := (getField_filter_ne fields "subtype" "channel" (by decide)).trans hch
    have hth2 := (getField_filter_ne fields "subtype" "thread_ts" (by decide)).trans hth
    have hts2 := (getField_filter_ne fields "subtype" "ts" (by decide)).trans hts
    simp [decodeMessageEvent, hsub, decodeOptSubtypeTag, decodeCommonMessageEvent,
          hch2, hth2, hts2, decodeString, decodeOptString]
  · intro fields hsub hch
    have hch2 := (getField_filter_ne fields "subtype" "channel" (by decide)).trans hch
    simp [decodeMessageEvent, hsub, decodeOptSubtypeTag, decodeSubtypeTag,
          decodeCommonMessageEvent, hch2]

/-- Witness for C10: an unknown subtype with an arbitrary remaining structure
decodes to the catch-all, while a plain message lacking channel fails. -/
theorem c10_witness :
    (Json.obj [("subtype", Json.str "bot_message"),
               ("weird", Json.num 3)]).getField "subtype"
        = some (.str "bot_message")
    ∧ decodeMessageEvent
        (.obj [("subtype", Json.str "bot_message"), ("weird", Json.num 3)])
        = .ok .other
    ∧ decodeMessageEvent (.obj [("ts", Json.str "1.1")])
        = .error "missing field channel" :=
  ⟨rfl,
   c10_subtype_other_skips_validation.1 _ "bot_message" rfl (by decide),
   c10_subtype_other_skips_validation.2.1 [("ts", Json.str "1.1")] rfl rfl⟩

/-- C4 counterexample: a stream read error while Connected does not route back
to Handshaking — the error propagates out of main and the process exits with a
fatal error, and the open-connection collaborator is never invoked again (the
event trace is empty although a further epoch was available). -/
theorem c4_counterexample :
    runLoop collabOk [⟨true, some "wss://example"⟩]
        [[.readError "io error"], [.frame .close]]
      = ([], .fatal "io error") :=
  rfl

/-- C4 (amended): a Close frame, a decoded Disconnect event, or end of stream
while Connected routes the Supervisor back to Handshaking — the
open-connection collaborator is invoked again before any further frame is
processed — while a stream read error instead propagates as a fatal error and
exits the process. -/
theorem c4_stream_termination_routes :
    ∀ (c : Collaborators) (rest : List StreamItem),
      runEpoch c (.frame .close :: rest) = (.reconnect, [])
      ∧ runEpoch c [] = (.reconnect, [])
      ∧ (∀ (j : Json) (sent : List OutMsg),
          handle_text c j = (.ok false, sent) →
          runEpoch c (.frame (.text j) :: rest) = (.reconnect, sent))
      ∧ (∀ e, runEpoch c (.readError e :: rest) = (.fatal e, []))
      ∧ (∀ (items : List StreamItem) (sent : List OutMsg)
            (h : AppsConnectionsOpenResponse)
            (hs : List AppsConnectionsOpenResponse)
            (eps : List (List StreamItem)),
          runEpoch c items = (.reconnect, sent) →
          ∃ tail, (runLoop c (h :: hs) (items :: eps)).1
            = sent.map SupEvent.sent ++ SupEvent.handshakeCalled :: tail) := by
  intro c rest
  refine ⟨rfl, rfl, ?_, fun _ => rfl, ?_⟩
  · intro j sent hj
    simp [runEpoch, hj]
  · intro items sent h hs eps hre
    cases hok : h.ok
    · exact ⟨[], by simp [runLoop, hre, hok]⟩
    · cases hurl : h.url with
      | none => exact ⟨[], by simp [runLoop, hre, hok, hurl]⟩
      | some u => exact ⟨(runLoop c hs eps).1, by simp [runLoop, hre, hok, hurl]⟩

/-- Witness for C4 (amended): a decoded Disconnect frame ends the epoch with a
reconnect. -/
theorem c4_witness :
    handle_text collabOk disconnectJson = (.ok false, [])
    ∧ runEpoch collabOk [.frame (.text disconnectJson)] = (.reconnect, []) :=
  ⟨rfl, (c4_stream_termination_routes collabOk []).2.2.1 disconnectJson [] rfl⟩

/-- C6 counterexample: a text frame with an unrecognized outer type tag does
fail to decode, but the failure is not contained to that frame: the whole
epoch ends fatally (process exit) and the following Ping frame is never
answered. -/
theorem c6_counterexample :
    decodeSlackEvent (.obj [("type", Json.str "interactive")])
        = .error ("unknown variant " ++ "interactive")
    ∧ runEpoch collabOk
        [.frame (.text (.obj [("type", Json.str "interactive")])),
         .frame (.ping [1, 2])]
        = (.fatal ("unknown variant " ++ "interactive"), []) :=
  ⟨rfl, rfl⟩

/-- C6 (amended): decoding a text frame whose outer type tag is unrecognized
fails with a decode error (there is no catch-all at the outer envelope level),
and in the current dispatch path that error propagates out of handle_text and
ends the epoch fatally — it is fatal to the connection and the process, not to
the current frame only. -/
theorem c6_unknown_outer_tag_fatal :
    (∀ (fields : List (String × Json)) (t : String),
        (Json.obj fields).getField "type" = some (.str t) →
        t ≠ "hello" → t ≠ "disconnect" → t ≠ "events_api" →
        decodeSlackEvent (.obj fields) = .error ("unknown variant " ++ t))
    ∧ (∀ (c : Collaborators) (j : Json) (e : String) (rest : List StreamItem),
        decodeSlackEvent j = .error e →
        handle_text c j = (.error e, [])
        ∧ runEpoch c (.frame (.text j) :: rest) = (.fatal e, [])) := by
  constructor
  · intro fields t h1 h2 h3 h4
    simp [decodeSlackEvent, h1, h2, h3, h4]
  · intro c j e rest h
    have ht : handle_text c j = (.error e, []) := by simp [handle_text, h]
    exact ⟨ht, by simp [runEpoch, ht]⟩

/-- Witness for C6 (amended) at the concrete unknown outer tag goodbye. -/
theorem c6_witness :
    (Json.obj [("type", Json.str "goodbye")]).getField "type"
        = some (.str "goodbye")
    ∧ decodeSlackEvent (.obj [("type", Json.str "goodbye")])
        = .error ("unknown variant " ++ "goodbye")
    ∧ handle_text collabOk (.obj [("type", Json.str "goodbye")])
        = (.error ("unknown variant " ++ "goodbye"), []) :=
  ⟨rfl,
   c6_unknown_outer_tag_fatal.1 [("type", Json.str "goodbye")] "goodbye" rfl
     (by decide) (by decide) (by decide),
   (c6_unknown_outer_tag_fatal.2 collabOk (.obj [("type", Json.str "goodbye")]) _ []
      (c6_unknown_outer_tag_fatal.1 [("type", Json.str "goodbye")] "goodbye" rfl
        (by decide) (by decide) (by decide))).1⟩

/-- C7 counterexample: when the resolve-permalink collaborator answers ok:true
without a permalink, the reaction does not terminate with a ReactionError —
the code panics unwrapping the absent permalink.  (The post-message
collaborator is still never called: the trace holds only the permalink
call.) -/
theorem c7_counterexample :
    find_threaded_message threadedPayload = some ("C1", "1.1")
    ∧ handle_event collabPermalinkMissing threadedPayload
        = (.panicked "unwrap on None", [.getPermalink "C1" "1.1"]) :=
  ⟨rfl, rfl⟩

/-- C7 (amended): for every reaction dispatch on (channel, message_ts), an
ok:false answer from the resolve-permalink collaborator terminates the
reaction with a ReactionError, an ok:true answer without a permalink causes a
panic; in both cases the post-message collaborator is never called for that
event, and each of the two calls is made at most once, with no retry. -/
theorem c7_permalink_failure_aborts :
    ∀ (c : Collaborators) (p : EventsApiPayload) (channel ts : String),
      find_threaded_message p = some (channel, ts) →
      (∀ (tok : String) (r : ChatGetPermalinkResponse),
          c.oauthToken = some tok → c.getPermalink channel ts = .ok r →
          r.ok = false →
          handle_event c p
            = (.error "chat.getPermalink failed", [.getPermalink channel ts]))
      ∧ (∀ (tok : String) (r : ChatGetPermalinkResponse),
          c.oauthToken = some tok → c.getPermalink channel ts = .ok r →
          r.ok = true → r.permalink = none →
          handle_event c p
            = (.panicked "unwrap on None", [.getPermalink channel ts]))
      ∧ ((handle_event c p).2 = []
         ∨ (handle_event c p).2 = [.getPermalink channel ts]
         ∨ ∃ link, (handle_event c p).2
             = [.getPermalink channel ts, .postMessage channel link]) := by
  intro c p channel ts hc
  refine ⟨?_, ?_, ?_⟩
  · intro tok r htok hg hok
    simp [handle_event, hc, htok, hg, hok]
  · intro tok r htok hg hok hperm
    simp [handle_event, hc, htok, hg, hok, hperm]
  · cases htok : c.oauthToken with
    | none => left; simp [handle_event, hc, htok]
    | some tok =>
      cases hg : c.getPermalink channel ts with
      | error e => right; left; simp [handle_event, hc, htok, hg]
      | ok r =>
        cases hok : r.ok
        · right; left; simp [handle_event, hc, htok, hg, hok]
        · cases hperm : r.permalink with
          | none => right; left; simp [handle_event, hc, htok, hg, hok, hperm]
          | some link =>
            cases hp : c.postMessage channel link with
            | error e =>
              right; right
              exact ⟨link, by simp [handle_event, hc, htok, hg, hok, hperm, hp]⟩
            | ok r2 =>
              cases hok2 : r2.ok
              · right; right
                exact ⟨link, by simp [handle_event, hc, htok, hg, hok, hperm, hp, hok2]⟩
              · cases hts : r2.ts with
                | none =>
                  right; right
                  exact ⟨link,
                    by simp [handle_event, hc, htok, hg, hok, hperm, hp, hok2, hts]⟩
                | some t2 =>
                  right; right
                  exact ⟨link,
                    by simp [handle_event, hc, htok, hg, hok, hperm, hp, hok2, hts]⟩

/-- Witness for C7 (amended): the ok:false collaborator on the concrete
threaded payload yields the terminal error with exactly one outbound call. -/
theorem c7_witness :
    find_threaded_message threadedPayload = some ("C1", "1.1")
    ∧ collabPermalinkNotOk.oauthToken = some "xoxb-token"
    ∧ collabPermalinkNotOk.getPermalink "C1" "1.1" = .ok ⟨false, none⟩
    ∧ handle_event collabPermalinkNotOk threadedPayload
        = (.error "chat.getPermalink failed", [.getPermalink "C1" "1.1"]) :=
  ⟨rfl, rfl, rfl,
   (c7_permalink_failure_aborts collabPermalinkNotOk threadedPayload "C1" "1.1" rfl).1
     "xoxb-token" ⟨false, none⟩ rfl rfl rfl⟩

end SlackThreadExpander
